import Mathlib

/-!
Verification development for the applebooks location-resolution pipeline.

The definitions below are a shallow embedding of the Python sources:
`abxgeo/resolver.py` (LocationResolver), `abxgeo/geocoder.py` (GeocoderCascade),
`abxgeo/rate_limiter.py` (RateLimiter), and `abxgeo/cluster.py` (batch cluster
merging and `save_cluster`).  External capabilities (the BAML LLM calls, the
geopy provider calls, `hashlib.sha256`, wall-clock time) are modelled as
oracle parameters: each LLM or provider call is an entry of an oracle
function, and the SHA-256 digest is an arbitrary fixed function parameter.
Numeric fields carried by the resolver use exact rationals in place of
Python floats; the trigonometric haversine computation of `cluster.py` is
embedded over the reals.
-/

/-- Python truthiness of an optional string: `None` and `""` are falsy.
Used for `if classification.simple_address:`, `if address_resolution.address:`
and `if not resolved_address:` in `resolver.py`. -/
def truthyOptStr : Option String → Bool
  | none => false
  | some s => !(s == "")

/-- Python truthiness of an optional float: `None` and `0.0` are falsy.
Used for `resolution_confidence and ...` in `should_skip_resolution`. -/
def truthyOptQ : Option ℚ → Bool
  | none => false
  | some q => decide (q ≠ 0)

/-- Whether the character list starting here begins with `needle`
(helper for the Python `in` substring operator). -/
def charsStartWith : List Char → List Char → Bool
  | _, [] => true
  | [], _ :: _ => false
  | c :: cs, d :: ds => c == d && charsStartWith cs ds

/-- Whether `needle` occurs contiguously inside the haystack
(helper for the Python `in` substring operator). -/
def charsContain : List Char → List Char → Bool
  | [], needle => needle.isEmpty
  | c :: cs, needle => charsStartWith (c :: cs) needle || charsContain cs needle

/-- Python's `str.lower`, as a character-list map. -/
def strToLowerChars (s : String) : List Char :=
  s.data.map Char.toLower

/-- Embeds the retryability classification of `resolve_async` (resolver.py
lines 384-390): an error message is retryable when, lowercased, it contains
"broken pipe", "connection", "timeout", or "rate limit". -/
def is_retryable (errorMsg : String) : Bool :=
  let m := strToLowerChars errorMsg
  charsContain m "broken pipe".data || charsContain m "connection".data ||
    charsContain m "timeout".data || charsContain m "rate limit".data

/-- Result of the BAML `ClassifyLocation` call. -/
structure Classification where
  category : String
  reason : String
  simple_address : Option String
  estimated_precision : Option String
deriving DecidableEq

/-- Result of the BAML `FindPreciseAddress` call. -/
structure AddressResolution where
  address : Option String
  lat : Option ℚ
  lon : Option ℚ
  precision : Option String
  confidence : ℚ
  source_url : Option String
  source_snippet : Option String
  is_residence : Bool
  corroboration : List String
  concerns : List String
deriving DecidableEq

/-- Successful result of `GeocoderCascade.geocode`. -/
structure GeocodeResult where
  address : String
  lat : ℚ
  lon : ℚ
  precision : String
  source : String
deriving DecidableEq

/-- Structured form of the `resolution_source` JSON payload built by
`resolve_async`; fields absent from a given tier's payload are `none`. -/
structure ResolutionSource where
  tier : Option String
  reason : Option String
  url : Option String
  snippet : Option String
  geocoder : Option String
  is_residence : Bool
  corroboration : List String
  concerns : List String
deriving DecidableEq

/-- The uniform resolution record produced by every tier of `resolve_async`
(the `resolved_at` timestamp is omitted: it is wall-clock input).  -/
structure Resolution where
  story_id : String
  loc_idx : Nat
  resolved_address : Option String
  resolved_lat : Option ℚ
  resolved_lon : Option ℚ
  resolved_precision : Option String
  resolution_confidence : ℚ
  resolution_source : ResolutionSource
deriving DecidableEq

/-- The per-location arguments of `resolve_async`. -/
structure LocationInput where
  story_id : String
  loc_idx : Nat
  place_name : String
  place_type : Option String
  note : Option String
  lat : Option ℚ
  lon : Option ℚ
  geo_precision : Option String
  story_title : String
  story_summary : String
deriving DecidableEq

/-- Oracles for the external calls made by `resolve_async`: the outcome of
the single `ClassifyLocation` call, and the outcome of the n-th
`FindPreciseAddress` respectively `GeocoderCascade.geocode` call.
`Except.error` models a raised exception. -/
structure ResolverEnv where
  classify : Except String Classification
  findAddress : Nat → Except String AddressResolution
  geocode : Nat → Except String (Option GeocodeResult)

/-- Observable outcome of one `resolve_async` run: the returned value plus a
trace of how many `FindPreciseAddress` and geocoder calls were made and the
backoff sleeps (in seconds) performed before retries. -/
structure ResolveOutcome where
  result : Option Resolution
  findCalls : Nat
  findDelays : List Nat
  geocodeCalls : Nat
  geocodeDelays : List Nat
deriving DecidableEq

/-- The `FindPreciseAddress` retry loop of `resolve_async` (lines 357-399):
`fuel` is the number of attempts still allowed (initially `max_retries = 3`),
`delay` the current backoff (initially 1s, doubled on each retry).  A retry
happens only when attempts remain (`attempt < max_retries - 1`) and the error
is retryable; otherwise the loop returns `None`.  Returns the result, the
number of calls made, and the list of sleeps performed. -/
def findRetryAux (f : Nat → Except String AddressResolution) (attempt fuel delay : Nat) :
    Option AddressResolution × Nat × List Nat :=
  match fuel with
  | 0 => (none, 0, [])
  | fuel' + 1 =>
    match f attempt with
    | Except.ok a => (some a, 1, [])
    | Except.error e =>
      if fuel' != 0 && is_retryable e then
        let r := findRetryAux f (attempt + 1) fuel' (delay * 2)
        (r.1, r.2.1 + 1, delay :: r.2.2)
      else (none, 1, [])

/-- The geocode retry loop of `resolve_async` (lines 401-433): 2 attempts,
backoff starting at 1s and doubling; a raised exception (on a non-final
attempt) is always retried, while a `None` return breaks the loop. -/
def geocodeRetryAux (g : Nat → Except String (Option GeocodeResult)) (idx fuel delay : Nat) :
    Option GeocodeResult × Nat × List Nat :=
  match fuel with
  | 0 => (none, 0, [])
  | fuel' + 1 =>
    match g idx with
    | Except.ok r => (r, 1, [])
    | Except.error _ =>
      if fuel' != 0 then
        let r := geocodeRetryAux g (idx + 1) fuel' (delay * 2)
        (r.1, r.2.1 + 1, delay :: r.2.2)
      else (none, 1, [])

/-- Python `x or default` on an optional string (`None` and `""` fall back),
as in `classification.estimated_precision or "city"`. -/
def pyOrStr : Option String → String → String
  | none, d => d
  | some s, d => if s == "" then d else s

/-- The skip-tier resolution record built by `resolve_async` (lines 283-306). -/
def skipResolution (inp : LocationInput) (c : Classification) : Resolution :=
  { story_id := inp.story_id
    loc_idx := inp.loc_idx
    resolved_address := some inp.place_name
    resolved_lat := inp.lat
    resolved_lon := inp.lon
    resolved_precision := some (if inp.place_type = some "country" then "country" else "region")
    resolution_confidence := 0.2
    resolution_source :=
      { tier := some "skip"
        reason := some c.reason
        url := some "N/A"
        snippet := some "N/A"
        geocoder := none
        is_residence := false
        corroboration := []
        concerns := ["Location too vague - insufficient context for specific address"] } }

/-- The simple-tier resolution record built by `resolve_async` (lines 331-350),
given the (possibly absent) geocode result. -/
def simpleResolution (inp : LocationInput) (c : Classification) (gr : Option GeocodeResult) :
    Resolution :=
  { story_id := inp.story_id
    loc_idx := inp.loc_idx
    resolved_address := match gr with | some g => some g.address | none => c.simple_address
    resolved_lat := match gr with | some g => some g.lat | none => inp.lat
    resolved_lon := match gr with | some g => some g.lon | none => inp.lon
    resolved_precision :=
      some (match gr with | some g => g.precision | none => pyOrStr c.estimated_precision "city")
    resolution_confidence := 0.85
    resolution_source :=
      { tier := some "simple"
        reason := some c.reason
        url := some "N/A (well-known location)"
        snippet := some "N/A"
        geocoder := gr.map (fun g => g.source)
        is_residence := false
        corroboration := []
        concerns := [] } }

/-- The research-tier resolution record built by `resolve_async` (lines
436-455): geocode result fields win; otherwise the LLM's self-reported
lat/lon/precision are used, and the `geocoder` provenance field is null. -/
def researchResolution (inp : LocationInput) (a : AddressResolution) (gr : Option GeocodeResult) :
    Resolution :=
  { story_id := inp.story_id
    loc_idx := inp.loc_idx
    resolved_address := a.address
    resolved_lat := match gr with | some g => some g.lat | none => a.lat
    resolved_lon := match gr with | some g => some g.lon | none => a.lon
    resolved_precision := match gr with | some g => some g.precision | none => a.precision
    resolution_confidence := a.confidence
    resolution_source :=
      { tier := none
        reason := none
        url := a.source_url
        snippet := a.source_snippet
        geocoder := gr.map (fun g => g.source)
        is_residence := a.is_residence
        corroboration := a.corroboration
        concerns := a.concerns } }

/-- The research tier of `resolve_async` (lines 352-457): retried
`FindPreciseAddress`, then - only when the returned address is truthy - the
retried geocode step, then the result record.  A `None` from the retry loop
makes the whole resolution return `None`. -/
def researchPath (inp : LocationInput) (env : ResolverEnv) : ResolveOutcome :=
  let f := findRetryAux env.findAddress 0 3 1
  match f.1 with
  | none =>
    { result := none
      findCalls := f.2.1, findDelays := f.2.2, geocodeCalls := 0, geocodeDelays := [] }
  | some a =>
    let g := if truthyOptStr a.address then geocodeRetryAux env.geocode 0 2 1 else (none, 0, [])
    { result := some (researchResolution inp a g.1)
      findCalls := f.2.1, findDelays := f.2.2, geocodeCalls := g.2.1, geocodeDelays := g.2.2 }

/-- Embedding of `LocationResolver.resolve_async` (resolver.py lines 240-457):
classification dispatch, then the skip / simple / research tiers.  A failed
classification, a category other than skip/simple, or a simple category
without a truthy `simple_address` all take the research path. -/
def resolveAsync (inp : LocationInput) (env : ResolverEnv) : ResolveOutcome :=
  match env.classify with
  | Except.error _ => researchPath inp env
  | Except.ok c =>
    if c.category = "skip" then
      { result := some (skipResolution inp c)
        findCalls := 0, findDelays := [], geocodeCalls := 0, geocodeDelays := [] }
    else if c.category = "simple" ∧ truthyOptStr c.simple_address = true then
      let gr := match env.geocode 0 with | Except.ok r => r | Except.error _ => none
      { result := some (simpleResolution inp c gr)
        findCalls := 0, findDelays := [], geocodeCalls := 1, geocodeDelays := [] }
    else researchPath inp env

/-- Embedding of `LocationResolver.should_skip_resolution` (resolver.py lines
207-238): always resolve when the stored address is falsy; in incremental
mode skip when the stored confidence is truthy and at least 0.7. -/
def should_skip_resolution (resolved_address : Option String)
    (resolution_confidence : Option ℚ) (incremental : Bool) : Bool :=
  if !truthyOptStr resolved_address then false
  else if incremental && truthyOptQ resolution_confidence
      && decide ((0.7 : ℚ) ≤ resolution_confidence.getD 0) then true
  else false

/-- Shared concrete fixture: a location input used by witness theorems. -/
def sampleInput : LocationInput :=
  { story_id := "s1", loc_idx := 0, place_name := "Cupertino, California",
    place_type := some "city", note := none, lat := some 1, lon := some 2,
    geo_precision := none, story_title := "t", story_summary := "sum" }

/-- Shared concrete fixture: a `FindPreciseAddress` result used by witnesses. -/
def sampleAddr : AddressResolution :=
  { address := some "1 Infinite Loop", lat := some 3, lon := some 4,
    precision := some "address", confidence := 0.5, source_url := none,
    source_snippet := none, is_residence := false, corroboration := [], concerns := [] }

/-- C1: in the research tier of `resolve_async`, the find-precise-address call
is retried up to 3 times with backoff delays 1s then 2s (doubling), a retry
happens only for retryable errors, and a non-retryable failure or exhaustion
of the 3-attempt budget makes `resolve_async` return null rather than raise. -/
theorem c1_research_retry_policy (inp : LocationInput) (c : Classification)
    (hcat : c.category = "research") :
    (∀ (f : Nat → Except String AddressResolution)
       (g : Nat → Except String (Option GeocodeResult)) (e1 e2 : String) (a : AddressResolution),
       f 0 = Except.error e1 → f 1 = Except.error e2 → f 2 = Except.ok a →
       is_retryable e1 = true → is_retryable e2 = true →
       (resolveAsync inp ⟨Except.ok c, f, g⟩).result.isSome = true ∧
       (resolveAsync inp ⟨Except.ok c, f, g⟩).findDelays = [1, 2] ∧
       (resolveAsync inp ⟨Except.ok c, f, g⟩).findCalls = 3) ∧
    (∀ (f : Nat → Except String AddressResolution)
       (g : Nat → Except String (Option GeocodeResult)) (e : String),
       f 0 = Except.error e → is_retryable e = false →
       (resolveAsync inp ⟨Except.ok c, f, g⟩).result = none ∧
       (resolveAsync inp ⟨Except.ok c, f, g⟩).findDelays = [] ∧
       (resolveAsync inp ⟨Except.ok c, f, g⟩).findCalls = 1) ∧
    (∀ (f : Nat → Except String AddressResolution)
       (g : Nat → Except String (Option GeocodeResult)) (e1 e2 e3 : String),
       f 0 = Except.error e1 → f 1 = Except.error e2 → f 2 = Except.error e3 →
       is_retryable e1 = true → is_retryable e2 = true →
       (resolveAsync inp ⟨Except.ok c, f, g⟩).result = none ∧
       (resolveAsync inp ⟨Except.ok c, f, g⟩).findDelays = [1, 2] ∧
       (resolveAsync inp ⟨Except.ok c, f, g⟩).findCalls = 3) := by
  refine ⟨?_, ?_, ?_⟩
  · intro f g e1 e2 a hf0 hf1 hf2 hr1 hr2
    simp [resolveAsync, hcat, researchPath, findRetryAux, hf0, hf1, hf2, hr1, hr2]
  · intro f g e hf0 hr
    simp [resolveAsync, hcat, researchPath, findRetryAux, hf0, hr]
  · intro f g e1 e2 e3 hf0 hf1 hf2 hr1 hr2
    simp [resolveAsync, hcat, researchPath, findRetryAux, hf0, hf1, hf2, hr1, hr2]

/-- Shared concrete fixture: a classification routed to the research tier. -/
def clsResearch : Classification :=
  { category := "research", reason := "ambiguous", simple_address := none,
    estimated_precision := none }

/-- Shared concrete fixture: two retryable failures then a success. -/
def fTimeouts : Nat → Except String AddressResolution := fun n =>
  if n = 0 then Except.error "Request Timeout"
  else if n = 1 then Except.error "connection reset by peer"
  else Except.ok sampleAddr

/-- Shared concrete fixture: an immediate non-retryable failure. -/
def fFatal : Nat → Except String AddressResolution := fun _ =>
  Except.error "invalid api key"

/-- Shared concrete fixture: three retryable failures in a row. -/
def fAllTimeouts : Nat → Except String AddressResolution := fun _ =>
  Except.error "rate limit exceeded"

/-- Shared concrete fixture: the geocoder cascade returning null. -/
def gNull : Nat → Except String (Option GeocodeResult) := fun _ => Except.ok none

/-- Witness for C1 at concrete inputs: timeout-timeout-success gives delays
1s, 2s and a non-null result; a non-retryable error gives null after one
call; three retryable errors exhaust the budget and give null. -/
theorem c1_research_retry_policy_witness :
    ((resolveAsync sampleInput ⟨Except.ok clsResearch, fTimeouts, gNull⟩).result.isSome = true ∧
     (resolveAsync sampleInput ⟨Except.ok clsResearch, fTimeouts, gNull⟩).findDelays = [1, 2] ∧
     (resolveAsync sampleInput ⟨Except.ok clsResearch, fTimeouts, gNull⟩).findCalls = 3) ∧
    ((resolveAsync sampleInput ⟨Except.ok clsResearch, fFatal, gNull⟩).result = none ∧
     (resolveAsync sampleInput ⟨Except.ok clsResearch, fFatal, gNull⟩).findDelays = [] ∧
     (resolveAsync sampleInput ⟨Except.ok clsResearch, fFatal, gNull⟩).findCalls = 1) ∧
    ((resolveAsync sampleInput ⟨Except.ok clsResearch, fAllTimeouts, gNull⟩).result = none ∧
     (resolveAsync sampleInput ⟨Except.ok clsResearch, fAllTimeouts, gNull⟩).findDelays = [1, 2] ∧
     (resolveAsync sampleInput ⟨Except.ok clsResearch, fAllTimeouts, gNull⟩).findCalls = 3) :=
  ⟨(c1_research_retry_policy sampleInput clsResearch rfl).1 fTimeouts gNull
      "Request Timeout" "connection reset by peer" sampleAddr rfl rfl rfl
      (by decide) (by decide),
   (c1_research_retry_policy sampleInput clsResearch rfl).2.1 fFatal gNull
      "invalid api key" rfl (by decide),
   (c1_research_retry_policy sampleInput clsResearch rfl).2.2 fAllTimeouts gNull
      "rate limit exceeded" "rate limit exceeded" "rate limit exceeded" rfl rfl rfl
      (by decide) (by decide)⟩

/-- C2: a location classified as skip makes `resolve_async` return immediately
a Resolution with `resolved_address = place_name`, lat/lon passed through,
precision forced to country (for place_type country) or region, confidence
exactly 0.2 and a concern note explaining the skip, with zero geocoder calls
(and zero research LLM calls). -/
theorem c2_skip_tier (inp : LocationInput) (env : ResolverEnv) (c : Classification)
    (hcls : env.classify = Except.ok c) (hcat : c.category = "skip") :
    resolveAsync inp env =
      { result := some
          { story_id := inp.story_id
            loc_idx := inp.loc_idx
            resolved_address := some inp.place_name
            resolved_lat := inp.lat
            resolved_lon := inp.lon
            resolved_precision :=
              some (if inp.place_type = some "country" then "country" else "region")
            resolution_confidence := 0.2
            resolution_source :=
              { tier := some "skip"
                reason := some c.reason
                url := some "N/A"
                snippet := some "N/A"
                geocoder := none
                is_residence := false
                corroboration := []
                concerns := ["Location too vague - insufficient context for specific address"] } }
        findCalls := 0
        findDelays := []
        geocodeCalls := 0
        geocodeDelays := [] } := by
  simp [resolveAsync, hcls, hcat, skipResolution]

/-- Shared concrete fixture: a skip classification. -/
def clsSkip : Classification :=
  { category := "skip", reason := "too vague", simple_address := none,
    estimated_precision := none }

/-- Witness for C2: the skip tier evaluated at a concrete location. -/
theorem c2_skip_tier_witness :
    resolveAsync sampleInput ⟨Except.ok clsSkip, fFatal, gNull⟩ =
      { result := some
          { story_id := "s1"
            loc_idx := 0
            resolved_address := some "Cupertino, California"
            resolved_lat := some 1
            resolved_lon := some 2
            resolved_precision := some "region"
            resolution_confidence := 0.2
            resolution_source :=
              { tier := some "skip"
                reason := some "too vague"
                url := some "N/A"
                snippet := some "N/A"
                geocoder := none
                is_residence := false
                corroboration := []
                concerns := ["Location too vague - insufficient context for specific address"] } }
        findCalls := 0
        findDelays := []
        geocodeCalls := 0
        geocodeDelays := [] } := by
  simpa [sampleInput, clsSkip] using
    c2_skip_tier sampleInput ⟨Except.ok clsSkip, fFatal, gNull⟩ clsSkip rfl rfl

/-- Shared concrete fixture: a simple classification with no canonical
address suggested. -/
def clsSimpleNoAddr : Classification :=
  { category := "simple", reason := "well known", simple_address := none,
    estimated_precision := some "city" }

/-- Shared concrete fixture: a `FindPreciseAddress` oracle succeeding at once. -/
def fOk : Nat → Except String AddressResolution := fun _ => Except.ok sampleAddr

/-- C3 counterexample: at a concrete location classified `simple` but with no
LLM-suggested canonical address, `resolve_async` does NOT return confidence
0.85 with zero research-tier LLM calls - it enters the research tier (one
find-precise-address call, confidence taken from the research result). -/
theorem c3_counterexample :
    ¬ ((resolveAsync sampleInput ⟨Except.ok clsSimpleNoAddr, fOk, gNull⟩).result.map
          (fun r => r.resolution_confidence) = some 0.85 ∧
       (resolveAsync sampleInput ⟨Except.ok clsSimpleNoAddr, fOk, gNull⟩).findCalls = 0) := by
  intro h
  have h2 := h.2
  simp [resolveAsync, clsSimpleNoAddr, researchPath, findRetryAux, fOk, truthyOptStr] at h2

/-- C3 (amended): a location classified simple with a truthy (non-null,
non-empty) LLM-suggested canonical address is geocoded directly and yields
confidence exactly 0.85 with zero research-tier LLM calls; a simple
classification without such an address falls through to the research tier
(it is not geocoded under the original place name). -/
theorem c3_simple_tier (inp : LocationInput) (env : ResolverEnv) (c : Classification)
    (hcls : env.classify = Except.ok c) (hcat : c.category = "simple") :
    (truthyOptStr c.simple_address = true →
      resolveAsync inp env =
        { result := some
            { story_id := inp.story_id
              loc_idx := inp.loc_idx
              resolved_address :=
                match (match env.geocode 0 with | Except.ok r => r | Except.error _ => none) with
                | some g => some g.address
                | none => c.simple_address
              resolved_lat :=
                match (match env.geocode 0 with | Except.ok r => r | Except.error _ => none) with
                | some g => some g.lat
                | none => inp.lat
              resolved_lon :=
                match (match env.geocode 0 with | Except.ok r => r | Except.error _ => none) with
                | some g => some g.lon
                | none => inp.lon
              resolved_precision :=
                some (match (match env.geocode 0 with | Except.ok r => r | Except.error _ => none) with
                  | some g => g.precision
                  | none => pyOrStr c.estimated_precision "city")
              resolution_confidence := 0.85
              resolution_source :=
                { tier := some "simple"
                  reason := some c.reason
                  url := some "N/A (well-known location)"
                  snippet := some "N/A"
                  geocoder :=
                    (match env.geocode 0 with | Except.ok r => r | Except.error _ => none).map
                      (fun g : GeocodeResult => g.source)
                  is_residence := false
                  corroboration := []
                  concerns := [] } }
          findCalls := 0
          findDelays := []
          geocodeCalls := 1
          geocodeDelays := [] }) ∧
    (truthyOptStr c.simple_address = false →
      resolveAsync inp env = researchPath inp env) := by
  constructor
  · intro htruthy
    simp [resolveAsync, hcls, hcat, htruthy, simpleResolution]
  · intro hfalsy
    simp [resolveAsync, hcls, hcat, hfalsy]

/-- Shared concrete fixture: a simple classification with a canonical address. -/
def clsSimple : Classification :=
  { category := "simple", reason := "well known city", simple_address := some "Cupertino, CA",
    estimated_precision := some "city" }

/-- Shared concrete fixture: a successful geocoder-cascade result. -/
def sampleGeo : GeocodeResult :=
  { address := "Cupertino, CA 95014, USA", lat := 37.323, lon := -122.032,
    precision := "city", source := "google" }

/-- Shared concrete fixture: a geocode oracle returning `sampleGeo`. -/
def gOk : Nat → Except String (Option GeocodeResult) := fun _ => Except.ok (some sampleGeo)

/-- Witness for C3 (amended) at concrete inputs: with a canonical address the
simple tier geocodes it and answers confidence 0.85 with zero research calls;
without one, `resolve_async` runs the research path. -/
theorem c3_simple_tier_witness :
    (resolveAsync sampleInput ⟨Except.ok clsSimple, fFatal, gOk⟩).result.map
        (fun r => r.resolution_confidence) = some 0.85 ∧
    (resolveAsync sampleInput ⟨Except.ok clsSimple, fFatal, gOk⟩).findCalls = 0 ∧
    (resolveAsync sampleInput ⟨Except.ok clsSimple, fFatal, gOk⟩).result.map
        (fun r => r.resolved_precision) = some (some "city") ∧
    resolveAsync sampleInput ⟨Except.ok clsSimpleNoAddr, fOk, gNull⟩ =
      researchPath sampleInput ⟨Except.ok clsSimpleNoAddr, fOk, gNull⟩ := by
  have h := c3_simple_tier sampleInput ⟨Except.ok clsSimple, fFatal, gOk⟩ clsSimple rfl rfl
  have h1 := h.1 (by decide)
  have h2 := c3_simple_tier sampleInput ⟨Except.ok clsSimpleNoAddr, fOk, gNull⟩ clsSimpleNoAddr
    rfl rfl
  refine ⟨?_, ?_, ?_, h2.2 (by decide)⟩ <;> simp [h1, gOk, sampleGeo]

/-- C4: in the research tier, when every geocoder attempt fails (raises) or
returns null, `resolve_async` still returns a Resolution whose lat, lon and
precision are the LLM's self-reported values and whose provenance has
`geocoder = null`; geocoding failure never turns the resolution into null. -/
theorem c4_geocoder_fallback (inp : LocationInput) (env : ResolverEnv) (c : Classification)
    (a : AddressResolution)
    (hcls : env.classify = Except.ok c) (hcat : c.category = "research")
    (hf : env.findAddress 0 = Except.ok a)
    (hg : ∀ i, i < 2 → env.geocode i = Except.ok none ∨ ∃ e, env.geocode i = Except.error e) :
    (resolveAsync inp env).result = some (researchResolution inp a none) ∧
    (researchResolution inp a none).resolved_lat = a.lat ∧
    (researchResolution inp a none).resolved_lon = a.lon ∧
    (researchResolution inp a none).resolved_precision = a.precision ∧
    (researchResolution inp a none).resolution_source.geocoder = none := by
  have hgr : (geocodeRetryAux env.geocode 0 2 1).1 = none := by
    rcases hg 0 (by norm_num) with h0 | ⟨e0, h0⟩
    · simp [geocodeRetryAux, h0]
    · rcases hg 1 (by norm_num) with h1 | ⟨e1, h1⟩
      · simp [geocodeRetryAux, h0, h1]
      · simp [geocodeRetryAux, h0, h1]
  refine ⟨?_, rfl, rfl, rfl, rfl⟩
  by_cases htruthy : truthyOptStr a.address = true
  · simp [resolveAsync, hcls, hcat, researchPath, findRetryAux, hf, htruthy, hgr]
  · simp only [Bool.not_eq_true] at htruthy
    simp [resolveAsync, hcls, hcat, researchPath, findRetryAux, hf, htruthy]

/-- Witness for C4: research tier at concrete input with the cascade giving
null on the first attempt and raising on a (hypothetical) second. -/
theorem c4_geocoder_fallback_witness :
    (resolveAsync sampleInput ⟨Except.ok clsResearch, fOk, gNull⟩).result =
      some (researchResolution sampleInput sampleAddr none) ∧
    (researchResolution sampleInput sampleAddr none).resolved_lat = some 3 ∧
    (researchResolution sampleInput sampleAddr none).resolved_lon = some 4 ∧
    (researchResolution sampleInput sampleAddr none).resolved_precision = some "address" ∧
    (researchResolution sampleInput sampleAddr none).resolution_source.geocoder = none := by
  have h := c4_geocoder_fallback sampleInput ⟨Except.ok clsResearch, fOk, gNull⟩ clsResearch
    sampleAddr rfl rfl rfl (fun i _ => Or.inl rfl)
  simpa [sampleAddr] using h

/-- C10: a location whose `resolved_address` is non-null but whose
`resolution_confidence` is None or 0.0 is never skipped, in incremental or
batch mode; more generally the skip path requires a present, truthy
confidence of at least 0.7 (plus a truthy address and incremental mode). -/
theorem c10_should_skip_missing_confidence (s : String) (incr : Bool) :
    should_skip_resolution (some s) none incr = false ∧
    should_skip_resolution (some s) (some 0) incr = false ∧
    (∀ (addr : Option String) (conf : Option ℚ),
      should_skip_resolution addr conf incr = true ↔
        (truthyOptStr addr = true ∧ incr = true ∧
          ∃ c, conf = some c ∧ c ≠ 0 ∧ (0.7 : ℚ) ≤ c)) := by
  refine ⟨?_, ?_, ?_⟩
  · simp [should_skip_resolution, truthyOptQ]
  · simp [should_skip_resolution, truthyOptQ]
  · intro addr conf
    cases conf with
    | none => simp [should_skip_resolution, truthyOptQ]
    | some c =>
      by_cases htr : truthyOptStr addr = true <;>
        by_cases hc : c = 0 <;>
          simp [should_skip_resolution, truthyOptQ, htr, hc, and_assoc]

/-- Witness for C10 at concrete inputs (the theorem's binders instantiated). -/
theorem c10_should_skip_missing_confidence_witness :
    should_skip_resolution (some "2066 Crist Dr") none true = false ∧
    should_skip_resolution (some "2066 Crist Dr") (some 0) false = false :=
  ⟨(c10_should_skip_missing_confidence "2066 Crist Dr" true).1,
   (c10_should_skip_missing_confidence "2066 Crist Dr" false).2.1⟩

/-- Raw fields of a geopy Nominatim response consulted by
`_determine_precision_nominatim`: the formatted address, coordinates, the
keys present in `raw["address"]`, and `raw["type"]`. -/
structure NominatimRaw where
  address : String
  lat : ℚ
  lon : ℚ
  addressKeys : List String
  placeType : String
deriving DecidableEq

/-- Raw fields of a geopy Google response consulted by
`_determine_precision_google`: the formatted address, coordinates,
`geometry.location_type`, and the flattened `address_components` types. -/
structure GoogleRaw where
  address : String
  lat : ℚ
  lon : ℚ
  locationType : String
  componentTypes : List String
deriving DecidableEq

/-- Embedding of `GeocoderCascade._determine_precision_nominatim`
(geocoder.py lines 124-143). -/
def determine_precision_nominatim (loc : NominatimRaw) : String :=
  if loc.addressKeys.contains "house_number" || loc.placeType == "house" then "address"
  else if loc.addressKeys.contains "road" || loc.placeType == "road"
      || loc.placeType == "street" then "street"
  else if loc.addressKeys.contains "city" || loc.addressKeys.contains "town"
      || loc.addressKeys.contains "village" then "city"
  else if loc.addressKeys.contains "state" || loc.addressKeys.contains "region" then "region"
  else if loc.addressKeys.contains "country" then "country"
  else "city"

/-- Embedding of `GeocoderCascade._determine_precision_google`
(geocoder.py lines 145-173). -/
def determine_precision_google (loc : GoogleRaw) : String :=
  if loc.locationType == "ROOFTOP" then "address"
  else if loc.locationType == "RANGE_INTERPOLATED" then "street"
  else if loc.locationType == "GEOMETRIC_CENTER" then
    if loc.componentTypes.contains "street_address"
        || loc.componentTypes.contains "premise" then "address"
    else if loc.componentTypes.contains "route" then "street"
    else if loc.componentTypes.contains "locality"
        || loc.componentTypes.contains "postal_town" then "city"
    else if loc.componentTypes.contains "administrative_area_level_1" then "region"
    else if loc.componentTypes.contains "country" then "country"
    else "city"
  else "city"

/-- Oracle for one `GeocoderCascade.geocode` call: whether a Google key is
configured, and the outcome of each provider's geopy call (`Except.error`
models a raised exception, `Except.ok none` an empty response). -/
structure CascadeEnv where
  googleConfigured : Bool
  googleCall : Except String (Option GoogleRaw)
  nominatimCall : Except String (Option NominatimRaw)

/-- Embedding of `GeocoderCascade._try_google` (geocoder.py lines 98-122):
returns `none` when no key is configured, when the provider raises (the
exception is caught), or when it returns no location. -/
def try_google (env : CascadeEnv) : Option GeocodeResult :=
  if !env.googleConfigured then none
  else
    match env.googleCall with
    | Except.error _ => none
    | Except.ok none => none
    | Except.ok (some loc) =>
      some { address := loc.address, lat := loc.lat, lon := loc.lon,
             precision := determine_precision_google loc, source := "google" }

/-- Embedding of `GeocoderCascade._try_nominatim` (geocoder.py lines 75-96):
a raised exception is caught and becomes `none`. -/
def try_nominatim (env : CascadeEnv) : Option GeocodeResult :=
  match env.nominatimCall with
  | Except.error _ => none
  | Except.ok none => none
  | Except.ok (some loc) =>
    some { address := loc.address, lat := loc.lat, lon := loc.lon,
           precision := determine_precision_nominatim loc, source := "nominatim" }

/-- Embedding of `GeocoderCascade.geocode` (geocoder.py lines 34-73): Google
first when configured, then Nominatim, then `None`. -/
def geocode_cascade (env : CascadeEnv) : Option GeocodeResult :=
  match (if env.googleConfigured then try_google env else none) with
  | some r => some r
  | none =>
    match try_nominatim env with
    | some r => some r
    | none => none

/-- C5: the cascade swallows each provider's exceptions (an error outcome is
"no result from this provider", never propagated), tries Google first when
configured and falls back to Nominatim, and returns null if and only if
every configured provider fails or returns nothing. -/
theorem c5_cascade_behavior :
    (∀ (env : CascadeEnv) (e : String),
       env.googleCall = Except.error e → try_google env = none) ∧
    (∀ (env : CascadeEnv) (e : String),
       env.nominatimCall = Except.error e → try_nominatim env = none) ∧
    (∀ (env : CascadeEnv) (r : GeocodeResult),
       env.googleConfigured = true → try_google env = some r →
       geocode_cascade env = some r) ∧
    (∀ env : CascadeEnv,
       env.googleConfigured = true → try_google env = none →
       geocode_cascade env = try_nominatim env) ∧
    (∀ env : CascadeEnv,
       env.googleConfigured = false → geocode_cascade env = try_nominatim env) ∧
    (∀ env : CascadeEnv,
       geocode_cascade env = none ↔
         ((env.googleConfigured = true → try_google env = none) ∧ try_nominatim env = none)) := by
  refine ⟨?_, ?_, ?_, ?_, ?_, ?_⟩
  · intro env e h
    simp [try_google, h]
  · intro env e h
    simp [try_nominatim, h]
  · intro env r hcfg h
    simp [geocode_cascade, hcfg, h]
  · intro env hcfg h
    cases hn : try_nominatim env <;> simp [geocode_cascade, hcfg, h, hn]
  · intro env hcfg
    cases hn : try_nominatim env <;> simp [geocode_cascade, hcfg, hn]
  · intro env
    cases hcfg : env.googleConfigured <;>
      cases hg : try_google env <;>
        cases hn : try_nominatim env <;>
          simp [geocode_cascade, hcfg, hg, hn]

/-- Shared concrete fixture: a Google raw response at rooftop accuracy. -/
def sampleGoogleRaw : GoogleRaw :=
  { address := "1 Infinite Loop, Cupertino, CA 95014, USA", lat := 37.33182,
    lon := -122.03118, locationType := "ROOFTOP", componentTypes := ["street_address"] }

/-- Shared concrete fixture: a Nominatim raw response at city granularity. -/
def sampleNominatimRaw : NominatimRaw :=
  { address := "Cupertino, Santa Clara County, California, United States", lat := 37.323,
    lon := -122.032, addressKeys := ["city", "state", "country"], placeType := "administrative" }

/-- Witness for C5 at concrete environments: a raising Google provider is
swallowed and the cascade falls back to Nominatim; a configured succeeding
Google provider wins; both providers empty gives null. -/
theorem c5_cascade_behavior_witness :
    try_google { googleConfigured := true, googleCall := Except.error "quota exceeded",
                 nominatimCall := Except.ok (some sampleNominatimRaw) } = none ∧
    geocode_cascade { googleConfigured := true, googleCall := Except.error "quota exceeded",
                      nominatimCall := Except.ok (some sampleNominatimRaw) } =
      try_nominatim { googleConfigured := true, googleCall := Except.error "quota exceeded",
                      nominatimCall := Except.ok (some sampleNominatimRaw) } ∧
    geocode_cascade { googleConfigured := true, googleCall := Except.ok (some sampleGoogleRaw),
                      nominatimCall := Except.ok none } =
      some { address := "1 Infinite Loop, Cupertino, CA 95014, USA", lat := 37.33182,
             lon := -122.03118, precision := "address", source := "google" } ∧
    geocode_cascade { googleConfigured := false, googleCall := Except.ok (some sampleGoogleRaw),
                      nominatimCall := Except.ok (some sampleNominatimRaw) } =
      try_nominatim { googleConfigured := false, googleCall := Except.ok (some sampleGoogleRaw),
                      nominatimCall := Except.ok (some sampleNominatimRaw) } ∧
    geocode_cascade { googleConfigured := true, googleCall := Except.error "quota exceeded",
                      nominatimCall := Except.error "service unavailable" } = none := by
  refine ⟨c5_cascade_behavior.1 _ "quota exceeded" rfl, ?_, ?_, ?_, ?_⟩
  · exact c5_cascade_behavior.2.2.2.1 _ rfl (c5_cascade_behavior.1 _ "quota exceeded" rfl)
  · exact c5_cascade_behavior.2.2.1 _ _ rfl (by rfl)
  · exact c5_cascade_behavior.2.2.2.2.1 _ rfl
  · exact (c5_cascade_behavior.2.2.2.2.2 _).mpr
      ⟨fun _ => c5_cascade_behavior.1 _ "quota exceeded" rfl,
       c5_cascade_behavior.2.1 _ "service unavailable" rfl⟩

/-- Python f-string rendering of an optional string: `None` prints as "None". -/
def pyShowOptStr : Option String → String
  | none => "None"
  | some s => s

/-- The hash input `f"{story_id}:{loc_idx}:{resolved_address}"` computed by
`persist_resolution` (resolver.py line 171). -/
def hashInput (r : Resolution) : String :=
  r.story_id ++ ":" ++ toString r.loc_idx ++ ":" ++ pyShowOptStr r.resolved_address

/-- The `resolution_hash` computed by `persist_resolution` (resolver.py line
172); the external `hashlib.sha256(...).hexdigest()[:16]` digest is
abstracted as the fixed function parameter `sha`. -/
def resolutionHashOf (sha : String → String) (r : Resolution) : String :=
  sha (hashInput r)

/-- The parameter tuple of the single UPDATE statement issued by
`persist_resolution` (resolver.py lines 174-202). -/
structure PersistedRow where
  resolved_address : Option String
  resolved_lat : Option ℚ
  resolved_lon : Option ℚ
  resolved_precision : Option String
  resolution_confidence : ℚ
  resolution_source : ResolutionSource
  resolution_hash : String
  story_id : String
  loc_idx : Nat
deriving DecidableEq

/-- Embedding of `LocationResolver.persist_resolution` (resolver.py lines
163-202): the row written for the location keyed `(story_id, loc_idx)`. -/
def persist_resolution (sha : String → String) (r : Resolution) : PersistedRow :=
  { resolved_address := r.resolved_address
    resolved_lat := r.resolved_lat
    resolved_lon := r.resolved_lon
    resolved_precision := r.resolved_precision
    resolution_confidence := r.resolution_confidence
    resolution_source := r.resolution_source
    resolution_hash := resolutionHashOf sha r
    story_id := r.story_id
    loc_idx := r.loc_idx }

/-- C6: the `resolution_hash` stored by `persist_resolution` is a
deterministic function of `(story_id, loc_idx, resolved_address)`: two
resolutions agreeing on those three fields store the same hash whatever
their other fields are. -/
theorem c6_resolution_hash_deterministic (sha : String → String) (r1 r2 : Resolution)
    (hid : r1.story_id = r2.story_id) (hidx : r1.loc_idx = r2.loc_idx)
    (haddr : r1.resolved_address = r2.resolved_address) :
    (persist_resolution sha r1).resolution_hash = (persist_resolution sha r2).resolution_hash := by
  simp [persist_resolution, resolutionHashOf, hashInput, hid, hidx, haddr]

/-- Shared concrete fixture: a resolution for hashing. -/
def sampleResolution : Resolution :=
  { story_id := "s1", loc_idx := 0, resolved_address := some "1 Infinite Loop",
    resolved_lat := some 3, resolved_lon := some 4, resolved_precision := some "address",
    resolution_confidence := 0.5,
    resolution_source :=
      { tier := none, reason := none, url := none, snippet := none, geocoder := none,
        is_residence := false, corroboration := [], concerns := [] } }

/-- Shared concrete fixture: same identity triple as `sampleResolution` but
different confidence, precision and provenance. -/
def sampleResolutionAlt : Resolution :=
  { story_id := "s1", loc_idx := 0, resolved_address := some "1 Infinite Loop",
    resolved_lat := some 5, resolved_lon := some 6, resolved_precision := some "city",
    resolution_confidence := 0.9,
    resolution_source :=
      { tier := some "simple", reason := some "well known", url := none, snippet := none,
        geocoder := some "google", is_residence := true, corroboration := ["x"], concerns := [] } }

/-- Witness for C6: two concrete resolutions sharing only the identity triple
receive the same stored hash (for the identity digest). -/
theorem c6_resolution_hash_deterministic_witness :
    (persist_resolution (fun s => s) sampleResolution).resolution_hash =
      (persist_resolution (fun s => s) sampleResolutionAlt).resolution_hash :=
  c6_resolution_hash_deterministic (fun s => s) sampleResolution sampleResolutionAlt rfl rfl rfl

/-- One resolved location row as consumed by the batch clustering code
(cluster.py): its story id and resolved coordinates. -/
structure BLoc where
  story_id : String
  resolved_lat : ℝ
  resolved_lon : ℝ

/-- A cluster dictionary as built by `cluster_locations` (cluster.py):
centroid, member locations, zoom level and precision type. -/
structure BCluster where
  center_lat : ℝ
  center_lon : ℝ
  locations : List BLoc
  zoom_level : Nat
  precision_type : String

/-- The `sorted([loc["story_id"] for loc in cluster["locations"]])` step of
`save_cluster` (cluster.py line 383). -/
def sortedStoryIds (locs : List BLoc) : List String :=
  List.insertionSort (· ≤ ·) (locs.map BLoc.story_id)

/-- Rendering of `json.dumps` for a list of strings with the default separators, as applied
by `save_cluster` to the sorted story ids. -/
def jsonStringList (ids : List String) : String :=
  "[" ++ String.intercalate ", " (ids.map (fun s => "\"" ++ s ++ "\"")) ++ "]"

/-- The deterministic cluster id computed by `save_cluster` (cluster.py lines
382-385): `"cluster_" + sha256(json.dumps(sorted_story_ids))[:16]`, with the
external sha256-hexdigest-truncation abstracted as `sha`. -/
def save_cluster_id (sha : String → String) (cluster : BCluster) : String :=
  "cluster_" ++ sha (jsonStringList (sortedStoryIds cluster.locations))

/-- C7: the cluster id produced by `save_cluster` is a deterministic function
of the sorted member story ids: clusters whose member story-id lists agree as
multisets - in particular, deduplicated member lists carrying the same set of
story ids - receive the identical cluster id, whatever their centroids, zoom
or other fields. -/
theorem c7_cluster_id_deterministic (sha : String → String) :
    (∀ c1 c2 : BCluster,
       (c1.locations.map BLoc.story_id).Perm (c2.locations.map BLoc.story_id) →
       save_cluster_id sha c1 = save_cluster_id sha c2) ∧
    (∀ c1 c2 : BCluster,
       (c1.locations.map BLoc.story_id).Nodup → (c2.locations.map BLoc.story_id).Nodup →
       (c1.locations.map BLoc.story_id).toFinset = (c2.locations.map BLoc.story_id).toFinset →
       save_cluster_id sha c1 = save_cluster_id sha c2) := by
  have key : ∀ c1 c2 : BCluster,
      (c1.locations.map BLoc.story_id).Perm (c2.locations.map BLoc.story_id) →
      save_cluster_id sha c1 = save_cluster_id sha c2 := by
    intro c1 c2 hperm
    have hsort : sortedStoryIds c1.locations = sortedStoryIds c2.locations := by
      have s1 : List.Sorted (· ≤ ·) (sortedStoryIds c1.locations) :=
        List.sorted_insertionSort _ _
      have s2 : List.Sorted (· ≤ ·) (sortedStoryIds c2.locations) :=
        List.sorted_insertionSort _ _
      have hp : (sortedStoryIds c1.locations).Perm (sortedStoryIds c2.locations) :=
        ((List.perm_insertionSort _ _).trans hperm).trans
          (List.perm_insertionSort _ _).symm
      exact List.eq_of_perm_of_sorted hp s1 s2
    simp [save_cluster_id, jsonStringList, hsort]
  exact ⟨key, fun c1 c2 h1 h2 hset =>
    key c1 c2 (List.perm_of_nodup_nodup_toFinset_eq h1 h2 hset)⟩

/-- Shared concrete fixture: a member location with a given story id. -/
def blocOf (sid : String) : BLoc :=
  { story_id := sid, resolved_lat := 0, resolved_lon := 0 }

/-- Shared concrete fixture: an address-level cluster with members b, a. -/
def clusterBA : BCluster :=
  { center_lat := 0, center_lon := 0, locations := [blocOf "b", blocOf "a"],
    zoom_level := 13, precision_type := "address" }

/-- Shared concrete fixture: a city-level cluster with members a, b. -/
def clusterAB : BCluster :=
  { center_lat := 1, center_lon := 1, locations := [blocOf "a", blocOf "b"],
    zoom_level := 10, precision_type := "city" }

/-- Witness for C7: two concrete clusters with the same story-id membership
in different order (and different centroids and zoom) get the same id. -/
theorem c7_cluster_id_deterministic_witness :
    save_cluster_id (fun s => s) clusterBA = save_cluster_id (fun s => s) clusterAB :=
  (c7_cluster_id_deterministic (fun s => s)).1 clusterBA clusterAB
    (List.Perm.swap "a" "b" [])

/-- Embedding of `haversine_distance` (cluster.py lines 29-45) over the
reals: great-circle distance in meters between two lat/lon points. -/
noncomputable def haversine_distance (lat1 lon1 lat2 lon2 : ℝ) : ℝ :=
  let lat1r := lat1 * (Real.pi / 180)
  let lon1r := lon1 * (Real.pi / 180)
  let lat2r := lat2 * (Real.pi / 180)
  let lon2r := lon2 * (Real.pi / 180)
  let dlat := lat2r - lat1r
  let dlon := lon2r - lon1r
  let a := Real.sin (dlat / 2) ^ 2 + Real.cos lat1r * Real.cos lat2r * Real.sin (dlon / 2) ^ 2
  let c := 2 * Real.arcsin (Real.sqrt a)
  c * 6371000

/-- Mean (`np.mean`) of the members' latitudes, as recomputed after merging. -/
noncomputable def meanLat (ls : List BLoc) : ℝ :=
  (ls.map BLoc.resolved_lat).sum / ls.length

/-- Mean (`np.mean`) of the members' longitudes, as recomputed after merging. -/
noncomputable def meanLon (ls : List BLoc) : ℝ :=
  (ls.map BLoc.resolved_lon).sum / ls.length

open Classical in
/-- Inner loop of the city→address merge pass (cluster.py lines 240-262):
the city cluster is merged into the first address cluster whose centroid is
within 5 km (haversine), which then gets its member list extended and its
centroid recomputed as the mean of all member coordinates; `none` when no
address cluster is close enough. -/
noncomputable def mergeCityIntoFirst (city : BCluster) : List BCluster → Option (List BCluster)
  | [] => none
  | a :: rest =>
    if haversine_distance city.center_lat city.center_lon a.center_lat a.center_lon < 5000 then
      let locs := a.locations ++ city.locations
      some ({ a with
              locations := locs
              center_lat := meanLat locs
              center_lon := meanLon locs } :: rest)
    else
      match mergeCityIntoFirst city rest with
      | some rest' => some (a :: rest')
      | none => none

/-- The city→address merge pass (cluster.py lines 233-268): each city-level
cluster is merged into the first first address cluster within the threshold, and
unmerged city clusters are kept, after the address clusters, in order. -/
noncomputable def cityMergeLoop (addrs kept : List BCluster) :
    List BCluster → List BCluster × List BCluster
  | [] => (addrs, kept)
  | city :: more =>
    match mergeCityIntoFirst city addrs with
    | some addrs' => cityMergeLoop addrs' kept more
    | none => cityMergeLoop addrs (kept ++ [city]) more

/-- The full first merge pass: final address clusters followed by the kept
(unmerged) city clusters. -/
noncomputable def cityMergePass (addrs cities : List BCluster) : List BCluster :=
  (cityMergeLoop addrs [] cities).1 ++ (cityMergeLoop addrs [] cities).2

open Classical in
/-- The second merge pass (cluster.py lines 270-317): each head cluster
absorbs every later cluster whose centroid lies within 5 km (haversine) of
its own; when it absorbs any, the merged cluster's centroid is the mean of
all member coordinates and it is labelled zoom 13 / "address". -/
noncomputable def addressMergePass : List BCluster → List BCluster
  | [] => []
  | a :: rest =>
    let near := rest.filter (fun b =>
      decide (haversine_distance a.center_lat a.center_lon b.center_lat b.center_lon < 5000))
    let far := rest.filter (fun b =>
      !decide (haversine_distance a.center_lat a.center_lon b.center_lat b.center_lon < 5000))
    if near.isEmpty then a :: addressMergePass far
    else
      let locs := a.locations ++ (near.map BCluster.locations).flatten
      { center_lat := meanLat locs, center_lon := meanLon locs, locations := locs,
        zoom_level := 13, precision_type := "address" } :: addressMergePass far
termination_by l => l.length
decreasing_by
  all_goals
    simp only [List.length_cons]
    exact Nat.lt_succ_of_le (List.length_filter_le _ _)

open Classical in
/-- C8: in the batch merge passes two clusters are merged exactly when the
haversine distance between their centroids is below the fixed 5 km
threshold (so centroids 4900 m apart merge and 5100 m apart do not), and a
merged cluster's centroid is recomputed as the arithmetic mean of all
member coordinates. -/
theorem c8_merge_threshold :
    (∀ a c : BCluster,
      cityMergePass [a] [c] =
        if haversine_distance c.center_lat c.center_lon a.center_lat a.center_lon < 5000 then
          [{ a with
              locations := a.locations ++ c.locations
              center_lat := meanLat (a.locations ++ c.locations)
              center_lon := meanLon (a.locations ++ c.locations) }]
        else [a, c]) ∧
    (∀ a b : BCluster,
      addressMergePass [a, b] =
        if haversine_distance a.center_lat a.center_lon b.center_lat b.center_lon < 5000 then
          [{ center_lat := meanLat (a.locations ++ b.locations)
             center_lon := meanLon (a.locations ++ b.locations)
             locations := a.locations ++ b.locations
             zoom_level := 13
             precision_type := "address" }]
        else [a, b]) := by
  constructor
  · intro a c
    by_cases h : haversine_distance c.center_lat c.center_lon a.center_lat a.center_lon < 5000
    · simp [cityMergePass, cityMergeLoop, mergeCityIntoFirst, h]
    · simp [cityMergePass, cityMergeLoop, mergeCityIntoFirst, h]
  · intro a b
    by_cases h : haversine_distance a.center_lat a.center_lon b.center_lat b.center_lon < 5000
    · simp [addressMergePass, h]
    · simp [addressMergePass, h]

/-- Number of recorded admissions lying in the one-second window ending at
`t` (boundary entry at `t` included). -/
def windowCount (t : ℚ) (l : List ℚ) : Nat :=
  l.countP (fun u => decide (t - 1 < u ∧ u ≤ t))

/-- Counting with a strictly weaker predicate, in a list holding a member
satisfying only the stronger one, is strictly monotone. -/
theorem countP_lt_of_witness {α : Type} (p q : α → Bool) (a : α)
    (hqa : q a = true) (hpa : p a = false) :
    ∀ (l : List α), (∀ x ∈ l, p x = true → q x = true) → a ∈ l →
      l.countP p < l.countP q := by
  intro l
  induction l with
  | nil =>
    intro _ ha
    exact absurd ha (List.not_mem_nil a)
  | cons b l ih =>
    intro hmono ha
    have hmono' : ∀ x ∈ l, p x = true → q x = true :=
      fun x hx => hmono x (List.mem_cons_of_mem _ hx)
    rcases List.mem_cons.mp ha with rfl | ha'
    · have hle : l.countP p ≤ l.countP q := List.countP_mono_left hmono'
      simp [List.countP_cons, hpa, hqa]
      omega
    · have hlt := ih hmono' ha'
      by_cases hpb : p b = true
      · have hqb := hmono b (List.mem_cons_self b l) hpb
        simp [List.countP_cons, hpb, hqb]
        omega
      · simp only [Bool.not_eq_true] at hpb
        by_cases hqb : q b = true
        · simp [List.countP_cons, hpb, hqb]
          omega
        · simp only [Bool.not_eq_true] at hqb
          simp [List.countP_cons, hpb, hqb]
          omega

/-- In a `≤`-sorted rational list, every entry the prune keeps is at least
the cutoff. -/
theorem mem_dropWhile_ge (c : ℚ) :
    ∀ (l : List ℚ), l.Sorted (· ≤ ·) →
      ∀ u ∈ l.dropWhile (fun t => decide (t < c)), c ≤ u := by
  intro l
  induction l with
  | nil =>
    intro _ u hu
    simp [List.dropWhile] at hu
  | cons a l ih =>
    intro hs u hu
    rw [List.dropWhile_cons] at hu
    by_cases hac : a < c
    · simp only [hac, decide_true_eq_true, if_true] at hu
      exact ih (List.sorted_cons.mp hs).2 u hu
    · simp [hac] at hu
      rcases hu with rfl | hu'
      · exact le_of_not_lt hac
      · exact le_trans (le_of_not_lt hac) ((List.sorted_cons.mp hs).1 u hu')

/-- In a `≤`-sorted rational list every member is at most the last element. -/
theorem sorted_le_getLast :
    ∀ (l : List ℚ), l.Sorted (· ≤ ·) → ∀ (hne : l ≠ []) (u : ℚ), u ∈ l →
      u ≤ l.getLast hne := by
  intro l
  induction l with
  | nil =>
    intro _ hne
    exact absurd rfl hne
  | cons a l ih =>
    intro hs hne u hu
    cases l with
    | nil =>
      rcases List.mem_cons.mp hu with rfl | h'
      · simp [List.getLast]
      · exact absurd h' (List.not_mem_nil u)
    | cons b l' =>
      have hne' : b :: l' ≠ [] := by simp
      have hlast : (a :: b :: l').getLast hne = (b :: l').getLast hne' :=
        List.getLast_cons hne'
      rw [hlast]
      rcases List.mem_cons.mp hu with rfl | hu'
      · exact (List.sorted_cons.mp hs).1 _ (List.getLast_mem hne')
      · exact ih (List.sorted_cons.mp hs).2 hne' u hu'

/-- Configuration of a `RateLimiter` (rate_limiter.py lines 11-21):
`max_concurrent` and the optional `requests_per_second`. -/
structure LimiterConfig where
  max_concurrent : Nat
  requests_per_second : Option ℚ

/-- Truthy rate of a limiter: Python's `if self.requests_per_second:`
treats `None` and `0.0` alike as "no rate limiting". -/
def rpsOf (cfg : LimiterConfig) : Option ℚ :=
  match cfg.requests_per_second with
  | none => none
  | some r => if r = 0 then none else some r

/-- Mutable state of a `RateLimiter` together with its suspended callers:
`active` counts semaphore slot holders (sleepers included),
`request_times` is the recorded deque, oldest first, and `sleepers` holds
the wake deadlines of the callers currently suspended in the rate-window
`await asyncio.sleep` (each holds a slot and will append its wake time
without re-checking the window). -/
structure LimiterState where
  active : Nat
  request_times : List ℚ
  sleepers : List ℚ

/-- A freshly constructed limiter. -/
def initialLimiter : LimiterState :=
  { active := 0, request_times := [], sleepers := [] }

/-- The prune of the deque performed at the head of the rate-window section
(rate_limiter.py lines 32-35): drop leading entries older than one second. -/
def prunedOf (s : LimiterState) (now : ℚ) : List ℚ :=
  s.request_times.dropWhile (fun t => decide (t < now - 1))

/-- Embedding of `RateLimiter.release` (rate_limiter.py lines 47-49): frees
the concurrency slot and touches neither the deque nor the sleepers. -/
def limiterRelease (s : LimiterState) : LimiterState :=
  { s with active := s.active - 1 }

/-- The atomic sections of `RateLimiter.acquire` and `release`, one
constructor per code region between suspension points, labelled with the
admission timestamp when the section admits a caller.
`acquireNoRate`: semaphore slot taken and no truthy rate - admitted at once,
nothing recorded.  `acquireFast`: rate set and the pruned window under the
limit - append `now` and admit (lines 32-45, no sleep, no suspension).
`acquireSleepStart`: rate set and the window full with a positive computed
sleep - the caller suspends holding its slot, to wake at
`now + (1 - (now - t0))`; nothing is appended yet.  `acquireSleepZero`: the
window is full but the computed sleep is not positive - no suspension,
append `now` and admit.  `wake`: a sleeper resumes at or after its deadline
and appends the current time, admitting WITHOUT re-checking the window
(rate_limiter.py lines 41-45).  `release`: a previously admitted caller
(one not suspended in the sleep) frees its slot.  An acquire section fires
only while a slot is free - a caller without one stays suspended in the
semaphore - and every section sees a clock later than all recorded
admissions (time advances between the atomic sections of the cooperative
event loop). -/
inductive LimiterStep (cfg : LimiterConfig) :
    LimiterState → Option ℚ → LimiterState → Prop
  | acquireNoRate {s : LimiterState} {now : ℚ}
      (hrps : rpsOf cfg = none)
      (hslot : s.active < cfg.max_concurrent)
      (hclock : ∀ t ∈ s.request_times, t < now) :
      LimiterStep cfg s (some now)
        { active := s.active + 1, request_times := s.request_times, sleepers := s.sleepers }
  | acquireFast {s : LimiterState} {now r : ℚ} {pr : List ℚ}
      (hrps : rpsOf cfg = some r)
      (hslot : s.active < cfg.max_concurrent)
      (hclock : ∀ t ∈ s.request_times, t < now)
      (hpruned : prunedOf s now = pr)
      (hlen : (pr.length : ℚ) < r) :
      LimiterStep cfg s (some now)
        { active := s.active + 1, request_times := pr ++ [now], sleepers := s.sleepers }
  | acquireSleepStart {s : LimiterState} {now r t0 w : ℚ} {pr tl : List ℚ}
      (hrps : rpsOf cfg = some r)
      (hslot : s.active < cfg.max_concurrent)
      (hclock : ∀ t ∈ s.request_times, t < now)
      (hpruned : prunedOf s now = pr)
      (hlen : r ≤ (pr.length : ℚ))
      (hhead : pr = t0 :: tl)
      (hpos : 0 < 1 - (now - t0))
      (hwake : w = now + (1 - (now - t0))) :
      LimiterStep cfg s none
        { active := s.active + 1, request_times := pr, sleepers := s.sleepers ++ [w] }
  | acquireSleepZero {s : LimiterState} {now r t0 : ℚ} {pr tl : List ℚ}
      (hrps : rpsOf cfg = some r)
      (hslot : s.active < cfg.max_concurrent)
      (hclock : ∀ t ∈ s.request_times, t < now)
      (hpruned : prunedOf s now = pr)
      (hlen : r ≤ (pr.length : ℚ))
      (hhead : pr = t0 :: tl)
      (hneg : 1 - (now - t0) ≤ 0) :
      LimiterStep cfg s (some now)
        { active := s.active + 1, request_times := pr ++ [now], sleepers := s.sleepers }
  | wake {s : LimiterState} {w tw : ℚ} {ws1 ws2 : List ℚ}
      (hw : s.sleepers = ws1 ++ w :: ws2)
      (htw : w ≤ tw)
      (hclock : ∀ t ∈ s.request_times, t < tw) :
      LimiterStep cfg s (some tw)
        { active := s.active, request_times := s.request_times ++ [tw], sleepers := ws1 ++ ws2 }
  | release {s : LimiterState}
      (hadm : s.sleepers.length < s.active) :
      LimiterStep cfg s none (limiterRelease s)

/-- States reachable from a freshly constructed limiter. -/
inductive LimiterReachable (cfg : LimiterConfig) : LimiterState → Prop
  | init : LimiterReachable cfg initialLimiter
  | step {s s' : LimiterState} {ev : Option ℚ} :
      LimiterReachable cfg s → LimiterStep cfg s ev s' → LimiterReachable cfg s'

/-- Entries outside the pruned suffix lie below the cutoff, so when the
pruned window is under the limit, the strict in-window count over the whole
deque is too. -/
theorem window_admit_fast (r now : ℚ) (times : List ℚ)
    (hlen : ((times.dropWhile (fun t => decide (t < now - 1))).length : ℚ) < r) :
    (times.countP (fun u => decide (now - 1 < u)) : ℚ) < r := by
  have heq : times.countP (fun u => decide (now - 1 < u)) =
      (times.takeWhile (fun t => decide (t < now - 1))).countP (fun u => decide (now - 1 < u)) +
        (times.dropWhile (fun t => decide (t < now - 1))).countP
          (fun u => decide (now - 1 < u)) := by
    conv_lhs =>
      rw [← List.takeWhile_append_dropWhile (fun t => decide (t < now - 1)) times]
    rw [List.countP_append]
  have hzero : (times.takeWhile (fun t => decide (t < now - 1))).countP
      (fun u => decide (now - 1 < u)) = 0 := by
    rw [List.countP_eq_zero]
    intro a ha
    have hlt := List.mem_takeWhile_imp ha
    simp only [decide_eq_true_eq] at hlt ⊢
    intro hgt
    linarith
  have hle : (times.dropWhile (fun t => decide (t < now - 1))).countP
      (fun u => decide (now - 1 < u)) ≤
      (times.dropWhile (fun t => decide (t < now - 1))).length :=
    List.countP_le_length _
  have hc : (times.countP (fun u => decide (now - 1 < u)) : ℚ) ≤
      ((times.dropWhile (fun t => decide (t < now - 1))).length : ℚ) := by
    rw [heq, hzero, Nat.zero_add]
    exact_mod_cast hle
  linarith

/-- When the pruned window is full with oldest surviving entry `t0`, the
number of recorded admissions strictly after `t0` is below the limit: `t0`
itself occupies the trailing window of the newest recorded admission, whose
own window count the invariant bounds by `r + 1`. -/
theorem window_admit_full (r now t0 : ℚ) (tl times : List ℚ)
    (hsort : times.Sorted (· ≤ ·))
    (hwin : ∀ t ∈ times, (windowCount t times : ℚ) < r + 1)
    (hclock : ∀ t ∈ times, t < now)
    (hhead : times.dropWhile (fun t => decide (t < now - 1)) = t0 :: tl) :
    (times.countP (fun u => decide (t0 < u)) : ℚ) < r := by
  have hsub : List.Sublist (times.dropWhile (fun t => decide (t < now - 1))) times :=
    List.dropWhile_sublist _
  have ht0pr : t0 ∈ times.dropWhile (fun t => decide (t < now - 1)) := by
    rw [hhead]
    exact List.mem_cons_self _ _
  have ht0times : t0 ∈ times := hsub.subset ht0pr
  have ht0ge : now - 1 ≤ t0 := mem_dropWhile_ge (now - 1) times hsort t0 ht0pr
  have hne : times ≠ [] := List.ne_nil_of_mem ht0times
  have htsmem : times.getLast hne ∈ times := List.getLast_mem hne
  have htslt : times.getLast hne < now := hclock _ htsmem
  have htsle : ∀ u ∈ times, u ≤ times.getLast hne := sorted_le_getLast _ hsort hne
  have ht0ts : t0 ≤ times.getLast hne := htsle t0 ht0times
  have hcnt : times.countP (fun u => decide (t0 < u)) <
      times.countP (fun u =>
        decide (times.getLast hne - 1 < u ∧ u ≤ times.getLast hne)) := by
    apply countP_lt_of_witness _ _ t0 ?_ ?_ times ?_ ht0times
    · simp only [decide_eq_true_eq]
      exact ⟨by linarith, ht0ts⟩
    · simp
    · intro x hx hpx
      simp only [decide_eq_true_eq] at hpx ⊢
      exact ⟨by linarith, htsle x hx⟩
  have hwts := hwin _ htsmem
  simp only [windowCount] at hwts
  have hc : (times.countP (fun u => decide (t0 < u)) : ℚ) + 1 ≤
      (times.countP (fun u =>
        decide (times.getLast hne - 1 < u ∧ u ≤ times.getLast hne)) : ℚ) := by
    exact_mod_cast hcnt
  linarith

/-- Invariant of the single-slot rate-limited limiter: the deque is sorted;
every recorded admission, itself included, saw at most `r` admissions in
its trailing one-second window; sleepers never outnumber slot holders, who
never outnumber `maxC`; and each pending sleeper's deadline lies strictly
after every recorded entry with fewer than `r` entries inside the second
preceding it. -/
def LimiterInv (r : ℚ) (maxC : Nat) (s : LimiterState) : Prop :=
  s.request_times.Sorted (· ≤ ·) ∧
  (∀ t ∈ s.request_times, (windowCount t s.request_times : ℚ) < r + 1) ∧
  s.sleepers.length ≤ s.active ∧
  s.active ≤ maxC ∧
  ∀ w ∈ s.sleepers, (∀ t ∈ s.request_times, t < w) ∧
    ((s.request_times.countP (fun u => decide (w - 1 < u)) : ℚ) < r)

/-- Appending a strictly-later entry does not change an earlier entry's
window count. -/
theorem windowCount_append_later (t x : ℚ) (l : List ℚ) (hx : t < x) :
    windowCount t (l ++ [x]) = windowCount t l := by
  simp only [windowCount, List.countP_append]
  have hz : List.countP (fun u => decide (t - 1 < u ∧ u ≤ t)) [x] = 0 := by
    rw [List.countP_eq_zero]
    intro a ha
    rw [List.mem_singleton] at ha
    subst ha
    simp only [decide_eq_true_eq]
    rintro ⟨-, hle⟩
    linarith
  omega

/-- Sorted append of a strictly-later entry. -/
theorem sorted_append_later (l : List ℚ) (x : ℚ) (hs : l.Sorted (· ≤ ·))
    (hx : ∀ t ∈ l, t < x) : (l ++ [x]).Sorted (· ≤ ·) :=
  List.pairwise_append.mpr ⟨hs, List.sorted_singleton x, fun a ha b hb => by
    rw [List.mem_singleton] at hb
    subst hb
    exact le_of_lt (hx a ha)⟩

/-- The newest appended entry's window counts itself plus the prior entries
strictly inside its trailing second. -/
theorem windowCount_append_self (x : ℚ) (l : List ℚ) :
    windowCount x (l ++ [x]) = l.countP (fun u => decide (x - 1 < u ∧ u ≤ x)) + 1 := by
  simp only [windowCount, List.countP_append]
  have h1 : List.countP (fun u => decide (x - 1 < u ∧ u ≤ x)) [x] = 1 := by
    have hx : ((fun u => decide (x - 1 < u ∧ u ≤ x)) x) = true := by
      simp only [decide_eq_true_eq]
      exact ⟨by linarith, le_refl x⟩
    simp [List.countP_cons, hx]
  omega

/-- Basic facts about the pruned suffix of a sorted deque. -/
theorem pruned_facts (s : LimiterState) (now : ℚ) (pr : List ℚ)
    (hsort : s.request_times.Sorted (· ≤ ·))
    (hclock : ∀ t ∈ s.request_times, t < now)
    (hpruned : prunedOf s now = pr) :
    pr.Sublist s.request_times ∧ pr.Sorted (· ≤ ·) ∧
    (∀ u ∈ pr, u ∈ s.request_times) ∧ (∀ u ∈ pr, now - 1 ≤ u) ∧ (∀ u ∈ pr, u < now) := by
  have hsub : pr.Sublist s.request_times := by
    rw [← hpruned]
    exact List.dropWhile_sublist _
  have hmem : ∀ u ∈ pr, u ∈ s.request_times := fun u hu => hsub.subset hu
  refine ⟨hsub, List.Pairwise.sublist hsub hsort, hmem, ?_, fun u hu => hclock u (hmem u hu)⟩
  intro u hu
  rw [← hpruned] at hu
  exact mem_dropWhile_ge (now - 1) s.request_times hsort u hu

/-- The window bound transfers along sublists of the deque. -/
theorem windowInv_sublist (r : ℚ) (pr times : List ℚ)
    (hsub : pr.Sublist times)
    (hwin : ∀ t ∈ times, (windowCount t times : ℚ) < r + 1) :
    ∀ t ∈ pr, (windowCount t pr : ℚ) < r + 1 := by
  intro t ht
  have h1 : windowCount t pr ≤ windowCount t times := List.Sublist.countP_le _ hsub
  have h2 := hwin t (hsub.subset ht)
  have h1q : (windowCount t pr : ℚ) ≤ (windowCount t times : ℚ) := by exact_mod_cast h1
  linarith

/-- One step of the single-slot rate-limited limiter preserves the
invariant. -/
theorem limiter_inv_step (cfg : LimiterConfig) (r : ℚ)
    (hmax : cfg.max_concurrent = 1) (hrps : rpsOf cfg = some r)
    (s s' : LimiterState) (ev : Option ℚ)
    (hinv : LimiterInv r 1 s) (hstep : LimiterStep cfg s ev s') :
    LimiterInv r 1 s' := by
  obtain ⟨hsort, hwin, hsa, ham, hsleep⟩ := hinv
  cases hstep with
  | acquireNoRate hrps0 hslot hclock =>
    rw [hrps] at hrps0
    exact absurd hrps0 (by simp)
  | acquireFast hrps0 hslot hclock hpruned hlen =>
    rename_i now r0 pr
    rw [hrps] at hrps0
    injection hrps0 with hr0
    subst hr0
    have hact0 : s.active = 0 := by rw [hmax] at hslot; omega
    have hsl0 : s.sleepers = [] := List.length_eq_zero.mp (by omega)
    obtain ⟨hsub, hprsort, hprmem, hprge, hprlt⟩ := pruned_facts s now pr hsort hclock hpruned
    refine ⟨sorted_append_later pr now hprsort hprlt, ?_, by simp [hsl0],
      by show s.active + 1 ≤ 1; omega, ?_⟩
    · intro t ht
      rcases List.mem_append.mp ht with htp | hts
      · rw [windowCount_append_later t now pr (hprlt t htp)]
        exact windowInv_sublist r pr s.request_times hsub hwin t htp
      · rw [List.mem_singleton] at hts
        rw [hts]
        rw [windowCount_append_self]
        have h1 : pr.countP (fun u => decide (now - 1 < u ∧ u ≤ now)) ≤ pr.length :=
          List.countP_le_length _
        have h1q : (pr.countP (fun u => decide (now - 1 < u ∧ u ≤ now)) : ℚ) ≤
            (pr.length : ℚ) := by exact_mod_cast h1
        push_cast
        linarith
    · intro w hw
      rw [hsl0] at hw
      exact absurd hw (List.not_mem_nil w)
  | acquireSleepStart hrps0 hslot hclock hpruned hlen hhead hpos hwake =>
    rename_i now r0 t0 w pr tl
    rw [hrps] at hrps0
    injection hrps0 with hr0
    subst hr0
    have hact0 : s.active = 0 := by rw [hmax] at hslot; omega
    have hsl0 : s.sleepers = [] := List.length_eq_zero.mp (by omega)
    obtain ⟨hsub, hprsort, hprmem, hprge, hprlt⟩ := pruned_facts s now pr hsort hclock hpruned
    have hfull := window_admit_full r now t0 tl s.request_times hsort hwin hclock
      (by rw [← hhead]; exact hpruned)
    refine ⟨hprsort, windowInv_sublist r pr s.request_times hsub hwin,
      by simp [hsl0], by show s.active + 1 ≤ 1; omega, ?_⟩
    intro w' hw'
    rw [hsl0, List.nil_append, List.mem_singleton] at hw'
    rw [hw']
    constructor
    · intro t ht
      have h1 : t < now := hprlt t ht
      rw [hwake]
      linarith
    · have heqf : (fun u => decide (w - 1 < u)) = (fun u => decide (t0 < u)) := by
        have hw1 : w - 1 = t0 := by rw [hwake]; ring
        simp only [hw1]
      rw [heqf]
      have hmono : pr.countP (fun u => decide (t0 < u)) ≤
          s.request_times.countP (fun u => decide (t0 < u)) :=
        List.Sublist.countP_le _ hsub
      have hq : (pr.countP (fun u => decide (t0 < u)) : ℚ) ≤
          (s.request_times.countP (fun u => decide (t0 < u)) : ℚ) := by exact_mod_cast hmono
      linarith
  | acquireSleepZero hrps0 hslot hclock hpruned hlen hhead hneg =>
    rename_i now r0 t0 pr tl
    rw [hrps] at hrps0
    injection hrps0 with hr0
    subst hr0
    have hact0 : s.active = 0 := by rw [hmax] at hslot; omega
    have hsl0 : s.sleepers = [] := List.length_eq_zero.mp (by omega)
    obtain ⟨hsub, hprsort, hprmem, hprge, hprlt⟩ := pruned_facts s now pr hsort hclock hpruned
    have ht0pr : t0 ∈ pr := by rw [hhead]; exact List.mem_cons_self _ _
    have ht0eq : t0 = now - 1 := le_antisymm (by linarith) (hprge t0 ht0pr)
    have hfull := window_admit_full r now t0 tl s.request_times hsort hwin hclock
      (by rw [← hhead]; exact hpruned)
    refine ⟨sorted_append_later pr now hprsort hprlt, ?_, by simp [hsl0],
      by show s.active + 1 ≤ 1; omega, ?_⟩
    · intro t ht
      rcases List.mem_append.mp ht with htp | hts
      · rw [windowCount_append_later t now pr (hprlt t htp)]
        exact windowInv_sublist r pr s.request_times hsub hwin t htp
      · rw [List.mem_singleton] at hts
        rw [hts]
        rw [windowCount_append_self]
        have hmono1 : pr.countP (fun u => decide (now - 1 < u ∧ u ≤ now)) ≤
            pr.countP (fun u => decide (t0 < u)) := by
          apply List.countP_mono_left
          intro x hx hpx
          simp only [decide_eq_true_eq] at hpx ⊢
          rw [ht0eq]
          exact hpx.1
        have hmono2 : pr.countP (fun u => decide (t0 < u)) ≤
            s.request_times.countP (fun u => decide (t0 < u)) :=
          List.Sublist.countP_le _ hsub
        have hq : (pr.countP (fun u => decide (now - 1 < u ∧ u ≤ now)) : ℚ) ≤
            (s.request_times.countP (fun u => decide (t0 < u)) : ℚ) := by
          exact_mod_cast le_trans hmono1 hmono2
        push_cast
        linarith
    · intro w hw
      rw [hsl0] at hw
      exact absurd hw (List.not_mem_nil w)
  | wake hw htw hclock =>
    rename_i w tw ws1 ws2
    have hlen1 : ws1.length + ws2.length + 1 ≤ 1 := by
      rw [hw] at hsa
      simp [List.length_append] at hsa
      omega
    have hws1 : ws1 = [] := List.length_eq_zero.mp (by omega)
    have hws2 : ws2 = [] := List.length_eq_zero.mp (by omega)
    have hwmem : w ∈ s.sleepers := by rw [hw]; simp
    obtain ⟨hwlt, hwcnt⟩ := hsleep w hwmem
    refine ⟨sorted_append_later _ tw hsort hclock, ?_, by simp [hws1, hws2], ham, ?_⟩
    · intro t ht
      rcases List.mem_append.mp ht with htp | hts
      · rw [windowCount_append_later t tw _ (hclock t htp)]
        exact hwin t htp
      · rw [List.mem_singleton] at hts
        rw [hts]
        rw [windowCount_append_self]
        have hmono : s.request_times.countP (fun u => decide (tw - 1 < u ∧ u ≤ tw)) ≤
            s.request_times.countP (fun u => decide (w - 1 < u)) := by
          apply List.countP_mono_left
          intro x hx hpx
          simp only [decide_eq_true_eq] at hpx ⊢
          have h1 := hpx.1
          linarith
        have hq : (s.request_times.countP (fun u => decide (tw - 1 < u ∧ u ≤ tw)) : ℚ) ≤
            (s.request_times.countP (fun u => decide (w - 1 < u)) : ℚ) := by
          exact_mod_cast hmono
        push_cast
        linarith
    · intro w' hw'
      rw [hws1, hws2] at hw'
      exact absurd hw' (List.not_mem_nil w')
  | release hadm =>
    refine ⟨hsort, hwin, ?_, ?_, hsleep⟩
    · simp only [limiterRelease]
      omega
    · simp only [limiterRelease]
      omega

/-- Every reachable state of the single-slot rate-limited limiter satisfies
the invariant. -/
theorem limiter_inv (cfg : LimiterConfig) (r : ℚ) (hr : 0 < r)
    (hmax : cfg.max_concurrent = 1) (hrps : rpsOf cfg = some r) :
    ∀ s, LimiterReachable cfg s → LimiterInv r 1 s := by
  intro s hs
  induction hs with
  | init =>
    refine ⟨List.sorted_nil, ?_, Nat.le_refl 0, Nat.zero_le 1, ?_⟩
    · intro t ht
      exact absurd ht (List.not_mem_nil t)
    · intro w hw
      exact absurd hw (List.not_mem_nil w)
  | step hreach hstep ih =>
    exact limiter_inv_step cfg r hmax hrps _ _ _ ih hstep

/-- No reachable state of any limiter holds more slots than
`max_concurrent`. -/
theorem limiter_active_bound (cfg : LimiterConfig) :
    ∀ s, LimiterReachable cfg s → s.active ≤ cfg.max_concurrent := by
  intro s hs
  induction hs with
  | init => exact Nat.zero_le _
  | step hreach hstep ih =>
    cases hstep with
    | acquireNoRate hrps hslot hclock => exact hslot
    | acquireFast hrps hslot hclock hpruned hlen => exact hslot
    | acquireSleepStart hrps hslot hclock hpruned hlen hhead hpos hwake => exact hslot
    | acquireSleepZero hrps hslot hclock hpruned hlen hhead hneg => exact hslot
    | wake hw htw hclock => exact ih
    | release hadm => exact le_trans (Nat.sub_le _ _) ih

/-- From an invariant state of the single-slot rate-limited limiter, every
admitting step sees strictly fewer than `r` recorded admissions in the
second preceding the admission instant, and records that instant. -/
theorem limiter_admit_step (cfg : LimiterConfig) (r : ℚ) (hr : 0 < r)
    (hmax : cfg.max_concurrent = 1) (hrps : rpsOf cfg = some r)
    (s s' : LimiterState) (adm : ℚ)
    (hinv : LimiterInv r 1 s) (hstep : LimiterStep cfg s (some adm) s') :
    ((s.request_times.countP (fun u => decide (adm - 1 < u)) : ℚ) < r ∧
      s'.request_times.getLast? = some adm) := by
  obtain ⟨hsort, hwin, hsa, ham, hsleep⟩ := hinv
  cases hstep with
  | acquireNoRate hrps0 hslot hclock =>
    rw [hrps] at hrps0
    exact absurd hrps0 (by simp)
  | acquireFast hrps0 hslot hclock hpruned hlen =>
    rename_i r0 pr
    rw [hrps] at hrps0
    injection hrps0 with hr0
    subst hr0
    constructor
    · refine window_admit_fast r adm s.request_times ?_
      have h := hlen
      rw [← hpruned] at h
      exact h
    · exact List.getLast?_concat _
  | acquireSleepZero hrps0 hslot hclock hpruned hlen hhead hneg =>
    rename_i r0 t0 pr tl
    rw [hrps] at hrps0
    injection hrps0 with hr0
    subst hr0
    obtain ⟨hsub, hprsort, hprmem, hprge, hprlt⟩ :=
      pruned_facts s adm pr hsort hclock hpruned
    have ht0pr : t0 ∈ pr := by rw [hhead]; exact List.mem_cons_self _ _
    have ht0eq : t0 = adm - 1 := le_antisymm (by linarith) (hprge t0 ht0pr)
    have hfull := window_admit_full r adm t0 tl s.request_times hsort hwin hclock
      (by rw [← hhead]; exact hpruned)
    constructor
    · have heqf : (fun u => decide (adm - 1 < u)) = (fun u => decide (t0 < u)) := by
        simp only [← ht0eq]
      rw [heqf]
      exact hfull
    · exact List.getLast?_concat _
  | wake hw htw hclock =>
    rename_i w ws1 ws2
    have hwmem : w ∈ s.sleepers := by rw [hw]; simp
    obtain ⟨hwlt, hwcnt⟩ := hsleep w hwmem
    constructor
    · have hmono : s.request_times.countP (fun u => decide (adm - 1 < u)) ≤
          s.request_times.countP (fun u => decide (w - 1 < u)) := by
        apply List.countP_mono_left
        intro x hx hpx
        simp only [decide_eq_true_eq] at hpx ⊢
        linarith
      have hq : (s.request_times.countP (fun u => decide (adm - 1 < u)) : ℚ) ≤
          (s.request_times.countP (fun u => decide (w - 1 < u)) : ℚ) := by
        exact_mod_cast hmono
      linarith
    · exact List.getLast?_concat _

/-- C9 (amended): for every `RateLimiter`, at most `max_concurrent` callers
hold the semaphore - hence at most that many are admitted-but-unreleased -
at any time, and `release` frees only the concurrency slot, removing no
rate-window entry.  For a rate-limited instance with `max_concurrent = 1`
(the only shape the module configures with a rate, `NOMINATIM_LIMITER`),
an acquire is admitted only while strictly fewer than `requests_per_second`
admissions are recorded in the one-second window preceding the admission
instant, and the admission timestamp is recorded as the newest deque entry. -/
theorem c9_rate_limiter (cfg : LimiterConfig) :
    (∀ s, LimiterReachable cfg s → s.active ≤ cfg.max_concurrent) ∧
    (∀ (r adm : ℚ) (s s' : LimiterState),
       cfg.max_concurrent = 1 → rpsOf cfg = some r → 0 < r →
       LimiterReachable cfg s → LimiterStep cfg s (some adm) s' →
       ((s.request_times.countP (fun u => decide (adm - 1 < u)) : ℚ) < r ∧
        s'.request_times.getLast? = some adm)) ∧
    (∀ s : LimiterState, (limiterRelease s).request_times = s.request_times ∧
       (limiterRelease s).sleepers = s.sleepers ∧
       (limiterRelease s).active = s.active - 1) := by
  refine ⟨limiter_active_bound cfg, ?_, fun s => ⟨rfl, rfl, rfl⟩⟩
  intro r adm s s' hmax hrps hr hreach hstep
  exact limiter_admit_step cfg r hr hmax hrps s s' adm
    (limiter_inv cfg r hr hmax hrps s hreach) hstep

/-- Shared concrete fixture: a burst-tolerant rate-limited profile
(2 concurrent, 1 request per second) - the shape under which the original
window claim fails. -/
def limiterCfgBurst : LimiterConfig :=
  { max_concurrent := 2, requests_per_second := some 1 }

/-- Shared concrete fixture: caller A admitted at time 0. -/
def limiterB1 : LimiterState :=
  { active := 1, request_times := [0], sleepers := [] }

/-- Shared concrete fixture: caller A released its slot. -/
def limiterB2 : LimiterState :=
  { active := 0, request_times := [0], sleepers := [] }

/-- Shared concrete fixture: caller B suspended in the rate sleep until
time 1 (the window `[0]` was full when it checked at time 1/10). -/
def limiterB3 : LimiterState :=
  { active := 1, request_times := [0], sleepers := [1] }

/-- Shared concrete fixture: caller C also suspended until time 1 (it saw
the same full window `[0]` at time 3/10 and computed the same deadline). -/
def limiterB4 : LimiterState :=
  { active := 2, request_times := [0], sleepers := [1, 1] }

/-- Shared concrete fixture: caller B woke at time 1 and appended it; C is
still suspended and will append on wake without re-checking. -/
def limiterB5 : LimiterState :=
  { active := 2, request_times := [0, 1], sleepers := [1] }

/-- Shared concrete fixture: caller C woke at time 21/20 and was admitted
although B's admission at time 1 already filled the trailing window. -/
def limiterB6 : LimiterState :=
  { active := 2, request_times := [0, 1, 21/20], sleepers := [] }

/-- C9 counterexample: with `max_concurrent = 2` and one request per
second, a reachable state of the acquire/release/sleep/wake step semantics
admits a caller (C waking at 21/20) while one admission (B's, at time 1) is
already recorded inside the preceding one-second window - the window bound
`count < requests_per_second` is violated, because the code appends after
its sleep without re-checking. -/
theorem c9_counterexample :
    LimiterReachable limiterCfgBurst limiterB5 ∧
    LimiterStep limiterCfgBurst limiterB5 (some (21/20)) limiterB6 ∧
    ¬ ((limiterB5.request_times.countP (fun u => decide ((21/20 : ℚ) - 1 < u)) : ℚ) < 1) := by
  have hrps : rpsOf limiterCfgBurst = some 1 := by
    norm_num [rpsOf, limiterCfgBurst]
  have h1 : LimiterStep limiterCfgBurst initialLimiter (some 0) limiterB1 :=
    @LimiterStep.acquireFast limiterCfgBurst initialLimiter 0 1 [] hrps
      (by norm_num [initialLimiter, limiterCfgBurst]) (by simp [initialLimiter])
      rfl (by norm_num)
  have h2 : LimiterStep limiterCfgBurst limiterB1 none limiterB2 :=
    LimiterStep.release (by norm_num [limiterB1])
  have h3 : LimiterStep limiterCfgBurst limiterB2 none limiterB3 :=
    @LimiterStep.acquireSleepStart limiterCfgBurst limiterB2 (1/10) 1 0 1 [0] [] hrps
      (by norm_num [limiterB2, limiterCfgBurst]) (by norm_num [limiterB2])
      (by norm_num [prunedOf, limiterB2, List.dropWhile_cons]) (by norm_num) rfl
      (by norm_num) (by norm_num)
  have h4 : LimiterStep limiterCfgBurst limiterB3 none limiterB4 :=
    @LimiterStep.acquireSleepStart limiterCfgBurst limiterB3 (3/10) 1 0 1 [0] [] hrps
      (by norm_num [limiterB3, limiterCfgBurst]) (by norm_num [limiterB3])
      (by norm_num [prunedOf, limiterB3, List.dropWhile_cons]) (by norm_num) rfl
      (by norm_num) (by norm_num)
  have h5 : LimiterStep limiterCfgBurst limiterB4 (some 1) limiterB5 :=
    @LimiterStep.wake limiterCfgBurst limiterB4 1 1 [] [1] rfl (by norm_num)
      (by norm_num [limiterB4])
  have h6 : LimiterStep limiterCfgBurst limiterB5 (some (21/20)) limiterB6 :=
    @LimiterStep.wake limiterCfgBurst limiterB5 1 (21/20) [] [] rfl (by norm_num)
      (by norm_num [limiterB5])
  refine ⟨?_, h6, ?_⟩
  · exact LimiterReachable.step (LimiterReachable.step (LimiterReachable.step
      (LimiterReachable.step (LimiterReachable.step LimiterReachable.init h1) h2) h3) h4) h5
  · simp only [limiterB5, List.countP_cons, List.countP_nil]
    norm_num

/-- Shared concrete fixture: the strict Nominatim limiter profile
(1 concurrent, 1 request per second). -/
def limiterCfgNominatim : LimiterConfig :=
  { max_concurrent := 1, requests_per_second := some 1 }

/-- Shared concrete fixture: single-slot limiter, caller admitted at 0. -/
def limiterN1 : LimiterState :=
  { active := 1, request_times := [0], sleepers := [] }

/-- Shared concrete fixture: single-slot limiter after the release. -/
def limiterN2 : LimiterState :=
  { active := 0, request_times := [0], sleepers := [] }

/-- Shared concrete fixture: a second caller suspended until time 1. -/
def limiterN3 : LimiterState :=
  { active := 1, request_times := [0], sleepers := [1] }

/-- Shared concrete fixture: the second caller admitted on wake at time 1. -/
def limiterN4 : LimiterState :=
  { active := 1, request_times := [0, 1], sleepers := [] }

/-- Witness for C9 on a concrete trace of the Nominatim-profile limiter:
the slot bound holds at a reachable state, the wake admission at time 1
sees zero admissions in its trailing window and is recorded as the newest
entry, and release frees only the slot. -/
theorem c9_rate_limiter_witness :
    limiterN2.active ≤ limiterCfgNominatim.max_concurrent ∧
    (((limiterN3.request_times.countP (fun u => decide ((1 : ℚ) - 1 < u))) : ℚ) < 1 ∧
      limiterN4.request_times.getLast? = some (1 : ℚ)) ∧
    ((limiterRelease limiterN3).request_times = limiterN3.request_times ∧
      (limiterRelease limiterN3).sleepers = limiterN3.sleepers ∧
      (limiterRelease limiterN3).active = limiterN3.active - 1) := by
  have hrps : rpsOf limiterCfgNominatim = some 1 := by
    norm_num [rpsOf, limiterCfgNominatim]
  have h1 : LimiterStep limiterCfgNominatim initialLimiter (some 0) limiterN1 :=
    @LimiterStep.acquireFast limiterCfgNominatim initialLimiter 0 1 [] hrps
      (by norm_num [initialLimiter, limiterCfgNominatim]) (by simp [initialLimiter])
      rfl (by norm_num)
  have h2 : LimiterStep limiterCfgNominatim limiterN1 none limiterN2 :=
    LimiterStep.release (by norm_num [limiterN1])
  have h3 : LimiterStep limiterCfgNominatim limiterN2 none limiterN3 :=
    @LimiterStep.acquireSleepStart limiterCfgNominatim limiterN2 (1/2) 1 0 1 [0] [] hrps
      (by norm_num [limiterN2, limiterCfgNominatim]) (by norm_num [limiterN2])
      (by norm_num [prunedOf, limiterN2, List.dropWhile_cons]) (by norm_num) rfl
      (by norm_num) (by norm_num)
  have h4 : LimiterStep limiterCfgNominatim limiterN3 (some 1) limiterN4 :=
    @LimiterStep.wake limiterCfgNominatim limiterN3 1 1 [] [] rfl (by norm_num)
      (by norm_num [limiterN3])
  have hreach2 : LimiterReachable limiterCfgNominatim limiterN2 :=
    LimiterReachable.step (LimiterReachable.step LimiterReachable.init h1) h2
  have hreach3 : LimiterReachable limiterCfgNominatim limiterN3 :=
    LimiterReachable.step hreach2 h3
  exact ⟨(c9_rate_limiter limiterCfgNominatim).1 limiterN2 hreach2,
    (c9_rate_limiter limiterCfgNominatim).2.1 1 1 limiterN3 limiterN4 rfl hrps
      (by norm_num) hreach3 h4,
    (c9_rate_limiter limiterCfgNominatim).2.2 limiterN3⟩

/-- Witness for C8: two concrete clusters with coincident centroids (distance
0 m, below the threshold) are merged by the second pass into one cluster
whose centroid is the mean of all member coordinates. -/
theorem c8_merge_threshold_witness :
    addressMergePass [clusterBA, clusterBA] =
      [{ center_lat := meanLat (clusterBA.locations ++ clusterBA.locations)
         center_lon := meanLon (clusterBA.locations ++ clusterBA.locations)
         locations := clusterBA.locations ++ clusterBA.locations
         zoom_level := 13
         precision_type := "address" }] := by
  have hz : haversine_distance clusterBA.center_lat clusterBA.center_lon
      clusterBA.center_lat clusterBA.center_lon < 5000 := by
    norm_num [haversine_distance, clusterBA]
  rw [c8_merge_threshold.2 clusterBA clusterBA, if_pos hz]
